import Mathlib

/-! The nnvk format registry (`skyline/hle/nnvk/format.h`).

A shallow embedding of the header: the `Format` enumeration, the `FormatInfo`
record with its two derived predicates, and the positional lookup
`GetFormatInfo` into the `FormatProperties` array.

Conventions
* `u8` fields are natural numbers (the header only compares them, so no
  arithmetic can overflow); `vk::Format` is the numeric value of the Vulkan
  enumerant, `0` being `vk::Format::eUndefined`.
* A `Format` object is an `i32` (the enumeration has a fixed underlying type, so
  every `i32` value is a possible argument); it is an `Int` here, constrained by
  `IsI32` where the width matters.
* `static_cast<size_t>` is reduction modulo `2^64`.
-/

namespace nnvk

/-- The enumerators of `enum class Format : i32`, in declaration order. -/
inductive Format where
  | None
  | R8
  | R8SN
  | R8UI
  | R8I
  | R16F
  | R16
  | R16SN
  | R16UI
  | R16I
  | R32F
  | R32UI
  | R32I
  | RG8
  | RG8SN
  | RG8UI
  | RG8I
  | RG16F
  | RG16
  | RG16SN
  | RG16UI
  | RG16I
  | RG32F
  | RG32UI
  | RG32I
  | RGB8
  | RGB8SN
  | RGB8UI
  | RGB8I
  | RGB16F
  | RGB16
  | RGB16SN
  | RGB16UI
  | RGB16I
  | RGB32F
  | RGB32UI
  | RGB32I
  | RGBA8
  | RGBA8SN
  | RGBA8UI
  | RGBA8I
  | RGBA16F
  | RGBA16
  | RGBA16SN
  | RGBA16UI
  | RGBA16I
  | RGBA32F
  | RGBA32UI
  | RGBA32I
  | Stencil8
  | Depth16
  | Depth24
  | Depth32F
  | Depth24_Stencil8
  | Depth32F_Stencil8
  | RGBX8_SRGB
  | RGBA8_SRGB
  | RGBA4
  | RGB5
  | RGB5A1
  | RGB565
  | RGB10A2
  | RGB10A2UI
  | R11G11B10F
  | RGB9E5F
  | RGB_DXT1
  | RGBA_DXT1
  | RGBA_DXT3
  | RGBA_DXT5
  | RGB_DXT1_SRGB
  | RGBA_DXT1_SRGB
  | RGBA_DXT3_SRGB
  | RGBA_DXT5_SRGB
  | RGTC1_Unorm
  | RGTC1_Snorm
  | RGTC2_Unorm
  | RGTC2_Snorm
  | BPTC_Unorm
  | BPTC_Unorm_SRGB
  | BPTC_SFLOAT
  | BPTC_UFLOAT
  | R8_UI2F
  | R8_I2F
  | R16_UI2F
  | R16_I2F
  | R32_UI2F
  | R32_I2F
  | RG8_UI2F
  | RG8_I2F
  | RG16_UI2F
  | RG16_I2F
  | RG32_UI2F
  | RG32_I2F
  | RGB8_UI2F
  | RGB8_I2F
  | RGB16_UI2F
  | RGB16_I2F
  | RGB32_UI2F
  | RGB32_I2F
  | RGBA8_UI2F
  | RGBA8_I2F
  | RGBA16_UI2F
  | RGBA16_I2F
  | RGBA32_UI2F
  | RGBA32_I2F
  | RGB10A2SN
  | RGB10A2I
  | RGB10A2_UI2F
  | RGB10A2_I2F
  | RGBX8
  | RGBX8SN
  | RGBX8UI
  | RGBX8I
  | RGBX16F
  | RGBX16
  | RGBX16SN
  | RGBX16UI
  | RGBX16I
  | RGBX32F
  | RGBX32UI
  | RGBX32I
  | RGBA_ASTC_4x4
  | RGBA_ASTC_5x4
  | RGBA_ASTC_5x5
  | RGBA_ASTC_6x5
  | RGBA_ASTC_6x6
  | RGBA_ASTC_8x5
  | RGBA_ASTC_8x6
  | RGBA_ASTC_8x8
  | RGBA_ASTC_10x5
  | RGBA_ASTC_10x6
  | RGBA_ASTC_10x8
  | RGBA_ASTC_10x10
  | RGBA_ASTC_12x10
  | RGBA_ASTC_12x12
  | RGBA_ASTC_4x4_SRGB
  | RGBA_ASTC_5x4_SRGB
  | RGBA_ASTC_5x5_SRGB
  | RGBA_ASTC_6x5_SRGB
  | RGBA_ASTC_6x6_SRGB
  | RGBA_ASTC_8x5_SRGB
  | RGBA_ASTC_8x6_SRGB
  | RGBA_ASTC_8x8_SRGB
  | RGBA_ASTC_10x5_SRGB
  | RGBA_ASTC_10x6_SRGB
  | RGBA_ASTC_10x8_SRGB
  | RGBA_ASTC_10x10_SRGB
  | RGBA_ASTC_12x10_SRGB
  | RGBA_ASTC_12x12_SRGB
  | BGR565
  | BGR5
  | BGR5A1
  | A1BGR5
  | BGRX8
  | BGRA8
  | BGRX8_SRGB
  | BGRA8_SRGB
  | FormatSize
  deriving DecidableEq, Fintype

namespace Format

/-- The enumerator list of the declaration, first to last. None of them has an
initialiser, so the first one is `0` and each later one is its predecessor plus one. -/
def enumerators : List Format :=
  [
   Format.None, Format.R8, Format.R8SN, Format.R8UI, Format.R8I, Format.R16F,
   Format.R16, Format.R16SN, Format.R16UI, Format.R16I, Format.R32F, Format.R32UI,
   Format.R32I, Format.RG8, Format.RG8SN, Format.RG8UI, Format.RG8I, Format.RG16F,
   Format.RG16, Format.RG16SN, Format.RG16UI, Format.RG16I, Format.RG32F, Format.RG32UI,
   Format.RG32I, Format.RGB8, Format.RGB8SN, Format.RGB8UI, Format.RGB8I, Format.RGB16F,
   Format.RGB16, Format.RGB16SN, Format.RGB16UI, Format.RGB16I, Format.RGB32F, Format.RGB32UI,
   Format.RGB32I, Format.RGBA8, Format.RGBA8SN, Format.RGBA8UI, Format.RGBA8I, Format.RGBA16F,
   Format.RGBA16, Format.RGBA16SN, Format.RGBA16UI, Format.RGBA16I, Format.RGBA32F, Format.RGBA32UI,
   Format.RGBA32I, Format.Stencil8, Format.Depth16, Format.Depth24, Format.Depth32F, Format.Depth24_Stencil8,
   Format.Depth32F_Stencil8, Format.RGBX8_SRGB, Format.RGBA8_SRGB, Format.RGBA4, Format.RGB5, Format.RGB5A1,
   Format.RGB565, Format.RGB10A2, Format.RGB10A2UI, Format.R11G11B10F, Format.RGB9E5F, Format.RGB_DXT1,
   Format.RGBA_DXT1, Format.RGBA_DXT3, Format.RGBA_DXT5, Format.RGB_DXT1_SRGB, Format.RGBA_DXT1_SRGB, Format.RGBA_DXT3_SRGB,
   Format.RGBA_DXT5_SRGB, Format.RGTC1_Unorm, Format.RGTC1_Snorm, Format.RGTC2_Unorm, Format.RGTC2_Snorm, Format.BPTC_Unorm,
   Format.BPTC_Unorm_SRGB, Format.BPTC_SFLOAT, Format.BPTC_UFLOAT, Format.R8_UI2F, Format.R8_I2F, Format.R16_UI2F,
   Format.R16_I2F, Format.R32_UI2F, Format.R32_I2F, Format.RG8_UI2F, Format.RG8_I2F, Format.RG16_UI2F,
   Format.RG16_I2F, Format.RG32_UI2F, Format.RG32_I2F, Format.RGB8_UI2F, Format.RGB8_I2F, Format.RGB16_UI2F,
   Format.RGB16_I2F, Format.RGB32_UI2F, Format.RGB32_I2F, Format.RGBA8_UI2F, Format.RGBA8_I2F, Format.RGBA16_UI2F,
   Format.RGBA16_I2F, Format.RGBA32_UI2F, Format.RGBA32_I2F, Format.RGB10A2SN, Format.RGB10A2I, Format.RGB10A2_UI2F,
   Format.RGB10A2_I2F, Format.RGBX8, Format.RGBX8SN, Format.RGBX8UI, Format.RGBX8I, Format.RGBX16F,
   Format.RGBX16, Format.RGBX16SN, Format.RGBX16UI, Format.RGBX16I, Format.RGBX32F, Format.RGBX32UI,
   Format.RGBX32I, Format.RGBA_ASTC_4x4, Format.RGBA_ASTC_5x4, Format.RGBA_ASTC_5x5, Format.RGBA_ASTC_6x5, Format.RGBA_ASTC_6x6,
   Format.RGBA_ASTC_8x5, Format.RGBA_ASTC_8x6, Format.RGBA_ASTC_8x8, Format.RGBA_ASTC_10x5, Format.RGBA_ASTC_10x6, Format.RGBA_ASTC_10x8,
   Format.RGBA_ASTC_10x10, Format.RGBA_ASTC_12x10, Format.RGBA_ASTC_12x12, Format.RGBA_ASTC_4x4_SRGB, Format.RGBA_ASTC_5x4_SRGB, Format.RGBA_ASTC_5x5_SRGB,
   Format.RGBA_ASTC_6x5_SRGB, Format.RGBA_ASTC_6x6_SRGB, Format.RGBA_ASTC_8x5_SRGB, Format.RGBA_ASTC_8x6_SRGB, Format.RGBA_ASTC_8x8_SRGB, Format.RGBA_ASTC_10x5_SRGB,
   Format.RGBA_ASTC_10x6_SRGB, Format.RGBA_ASTC_10x8_SRGB, Format.RGBA_ASTC_10x10_SRGB, Format.RGBA_ASTC_12x10_SRGB, Format.RGBA_ASTC_12x12_SRGB, Format.BGR565,
   Format.BGR5, Format.BGR5A1, Format.A1BGR5, Format.BGRX8, Format.BGRA8, Format.BGRX8_SRGB,
   Format.BGRA8_SRGB, Format.FormatSize
  ]

/-- Numeric value of an enumerator: its position in the declaration. -/
def ordinal (f : Format) : Nat :=
  enumerators.indexOf f

/-- The `i32` value carried by an enumerator. -/
def toI32 (f : Format) : Int :=
  (f.ordinal : Int)

end Format

namespace format

/-- The record `struct FormatInfo`. -/
structure FormatInfo where
  texture : Bool
  vertex : Bool
  bytesPerBlock : Nat
  blockWidth : Nat
  blockHeight : Nat
  redBits : Nat
  greenBits : Nat
  blueBits : Nat
  alphaBits : Nat
  depthBits : Nat
  stencilBits : Nat
  vkFormat : Nat
  deriving DecidableEq

namespace FormatInfo

/-- Member `bool IsCompressed() const`. -/
def IsCompressed (info : FormatInfo) : Bool :=
  decide (info.blockWidth > 1) || decide (info.blockHeight > 1)

/-- Member `bool IsDepthStencil() const`. -/
def IsDepthStencil (info : FormatInfo) : Bool :=
  decide (info.depthBits > 0) || decide (info.stencilBits > 0)

end FormatInfo

/-- The conversion `static_cast<size_t>(format)`: an `i32` converted to the 64-bit
unsigned `size_t`, that is, its value modulo `2^64`. -/
def toSizeT (v : Int) : Nat :=
  (v % 2 ^ 64).toNat

/-- The values an `i32` can hold. -/
def IsI32 (v : Int) : Prop :=
  -(2 ^ 31) ≤ v ∧ v < 2 ^ 31

instance (v : Int) : Decidable (IsI32 v) := by
  unfold IsI32
  infer_instance

/-- The array bound in the declaration of `FormatProperties`:
`static_cast<size_t>(Format::FormatSize)`. -/
def FormatPropertiesSize : Nat :=
  toSizeT Format.FormatSize.toI32

set_option maxRecDepth 8000 in
/-- The type of `FormatProperties`, `std::array<FormatInfo, FormatPropertiesSize>`:
its elements in order, as many as the declared bound. The header declares the
array `extern`; its elements are defined elsewhere, so the table is a parameter
of everything that reads it. -/
structure FormatTable where
  entries : List FormatInfo
  size_eq : entries.length = FormatPropertiesSize

/-- The error kinds of the specification's taxonomy. -/
inductive LookupError where
  | InvalidFormatIdentifier
  deriving DecidableEq

/-- What a call of `GetFormatInfo` amounts to.
* `record info`: the call returns `info` by value;
* `outOfBounds`: the unchecked `operator[]` is applied to an index that is not
  below the array bound, for which the header defines no result;
* `error e`: the call reports the error `e` to its caller. -/
inductive LookupResult where
  | record (info : FormatInfo)
  | outOfBounds
  | error (e : LookupError)
  deriving DecidableEq

/-- The function `GetFormatInfo`: `FormatProperties[static_cast<size_t>(format)]`,
an unchecked subscript of the array. -/
def GetFormatInfo (FormatProperties : FormatTable) (format : Int) : LookupResult :=
  match FormatProperties.entries[toSizeT format]? with
  | some info => LookupResult.record info
  | none => LookupResult.outOfBounds

namespace FormatInfo

/-- The record whose two capability flags are false and whose numbers are all zero. -/
def zero : FormatInfo :=
  { texture := false, vertex := false, bytesPerBlock := 0, blockWidth := 0, blockHeight := 0,
    redBits := 0, greenBits := 0, blueBits := 0, alphaBits := 0, depthBits := 0,
    stencilBits := 0, vkFormat := 0 }

/-- Membership of the colour-channel group: at least one of the red, green, blue
and alpha widths is positive. -/
def HasColorBits (info : FormatInfo) : Bool :=
  decide (info.redBits > 0) || decide (info.greenBits > 0) ||
    decide (info.blueBits > 0) || decide (info.alphaBits > 0)

end FormatInfo

/-- The element of the table at the position of an enumerator, if the table has one there. -/
def FormatTable.entry (tbl : FormatTable) (f : Format) : Option FormatInfo :=
  tbl.entries[f.ordinal]?

/-- The enumerators of the block-compressed families DXT, RGTC, BPTC and ASTC. They
stand together in the declaration: `RGB_DXT1` through `BPTC_UFLOAT`, and
`RGBA_ASTC_4x4` through `RGBA_ASTC_12x12_SRGB`. -/
def IsBlockCompressedFamily (f : Format) : Bool :=
  (decide (Format.RGB_DXT1.ordinal ≤ f.ordinal) && decide (f.ordinal ≤ Format.BPTC_UFLOAT.ordinal)) ||
    (decide (Format.RGBA_ASTC_4x4.ordinal ≤ f.ordinal) &&
      decide (f.ordinal ≤ Format.RGBA_ASTC_12x12_SRGB.ordinal))

/-- Modelled from the spec: the elements of `FormatProperties`. The header only
declares the array; its initialiser is in a source file that is not part of the
sources at hand. What the specification says of the elements is collected here:
the data-model invariants (section 3) and the three records it lists (section 8).
* `none_zero`: "The None identifier maps to an all-zero record with both
  capability flags false."
* `block_pos`: "For any non-None, usable format, bytesPerBlock, blockWidth,
  blockHeight are each at least 1."
* `one_group`: "Each format belongs to exactly one of color-channel group (at
  least one of red/green/blue/alpha bits set), depth/stencil group, None; these
  groups are mutually exclusive."
* `unit_block`: blockWidth, blockHeight are "1x1 when uncompressed", the
  compressed families being "DXT, RGTC, BPTC, ASTC".
* `rgba8`, `depth24_stencil8`, `astc_4x4`: the stored fields the specification
  lists for these three identifiers. -/
structure SpecFormatProperties (tbl : FormatTable) : Prop where
  none_zero : tbl.entry Format.None = some FormatInfo.zero
  block_pos : ∀ f info, f ≠ Format.None → tbl.entry f = some info →
    1 ≤ info.bytesPerBlock ∧ 1 ≤ info.blockWidth ∧ 1 ≤ info.blockHeight
  one_group : ∀ f info, f ≠ Format.None → tbl.entry f = some info →
    (info.HasColorBits = true ∧ info.IsDepthStencil = false) ∨
      (info.HasColorBits = false ∧ info.IsDepthStencil = true)
  unit_block : ∀ f info, f ≠ Format.None → IsBlockCompressedFamily f = false →
    tbl.entry f = some info → info.blockWidth = 1 ∧ info.blockHeight = 1
  rgba8 : ∀ info, tbl.entry Format.RGBA8 = some info →
    info.texture = true ∧ info.vertex = true ∧ info.bytesPerBlock = 4 ∧
      info.blockWidth = 1 ∧ info.blockHeight = 1 ∧ info.redBits = 8 ∧ info.greenBits = 8 ∧
      info.blueBits = 8 ∧ info.alphaBits = 8 ∧ info.depthBits = 0 ∧ info.stencilBits = 0
  depth24_stencil8 : ∀ info, tbl.entry Format.Depth24_Stencil8 = some info →
    info.depthBits = 24 ∧ info.stencilBits = 8
  astc_4x4 : ∀ info, tbl.entry Format.RGBA_ASTC_4x4 = some info →
    info.texture = true ∧ info.vertex = false ∧ info.blockWidth = 4 ∧ info.blockHeight = 4

/-- One element of `exampleTable`. -/
def exampleEntry (f : Format) : FormatInfo :=
  if f = Format.None then FormatInfo.zero
  else if f = Format.Depth24_Stencil8 then
    { texture := true, vertex := false, bytesPerBlock := 4, blockWidth := 1, blockHeight := 1,
      redBits := 0, greenBits := 0, blueBits := 0, alphaBits := 0, depthBits := 24,
      stencilBits := 8, vkFormat := 129 }
  else if IsBlockCompressedFamily f = true then
    { texture := true, vertex := false, bytesPerBlock := 16, blockWidth := 4, blockHeight := 4,
      redBits := 8, greenBits := 8, blueBits := 8, alphaBits := 8, depthBits := 0,
      stencilBits := 0, vkFormat := 157 }
  else
    { texture := true, vertex := true, bytesPerBlock := 4, blockWidth := 1, blockHeight := 1,
      redBits := 8, greenBits := 8, blueBits := 8, alphaBits := 8, depthBits := 0,
      stencilBits := 0, vkFormat := 37 }

/-- The elements of `exampleTable`: one per enumerator before the sentinel. -/
def exampleEntries : List FormatInfo :=
  (Format.enumerators.filter (fun f => decide (f ≠ Format.FormatSize))).map exampleEntry

set_option maxRecDepth 8000 in
/-- A table of the declared size that has the properties of `SpecFormatProperties`,
at which the theorems below are instantiated. Only the records the specification
lists are meant; the other elements merely respect its invariants. -/
def exampleTable : FormatTable :=
  { entries := exampleEntries, size_eq := by decide }

/-! ## Basic facts -/

set_option maxRecDepth 8000 in
theorem FormatPropertiesSize_eq : FormatPropertiesSize = 157 := by decide

set_option maxRecDepth 8000 in
theorem FormatSize_ordinal : Format.FormatSize.ordinal = 157 := by decide

set_option maxRecDepth 8000 in
theorem ordinal_le (f : Format) : f.ordinal ≤ 157 := by
  revert f
  decide

set_option maxRecDepth 8000 in
theorem enumerators_at_ordinal (f : Format) : Format.enumerators[f.ordinal]? = some f := by
  revert f
  decide

set_option maxRecDepth 8000 in
theorem ordinal_at_enumerators (i : Nat) (hi : i < 158) :
    (Format.enumerators[i]?).map Format.ordinal = some i := by
  revert i
  decide

theorem ordinal_injective (f g : Format) (h : f.ordinal = g.ordinal) : f = g := by
  have hf := enumerators_at_ordinal f
  have hg := enumerators_at_ordinal g
  rw [h, hg] at hf
  exact (Option.some.inj hf).symm

theorem ordinal_lt_of_ne (f : Format) (hf : f ≠ Format.FormatSize) : f.ordinal < 157 := by
  have hle := ordinal_le f
  have hne : f.ordinal ≠ 157 := by
    intro h
    exact hf (ordinal_injective f Format.FormatSize (by rw [h, FormatSize_ordinal]))
  omega

theorem toI32_lt_iff (f : Format) :
    f.toI32 < Format.FormatSize.toI32 ↔ f ≠ Format.FormatSize := by
  unfold Format.toI32
  rw [FormatSize_ordinal]
  constructor
  · intro h hf
    rw [hf, FormatSize_ordinal] at h
    omega
  · intro hf
    have := ordinal_lt_of_ne f hf
    omega

theorem toSizeT_natCast (n : Nat) (hn : n < 2 ^ 64) : toSizeT (n : Int) = n := by
  unfold toSizeT
  omega

theorem toSizeT_neg (v : Int) (hv : IsI32 v) (hneg : v < 0) :
    (toSizeT v : Int) = v + 2 ^ 64 := by
  unfold IsI32 at hv
  unfold toSizeT
  omega

theorem toSizeT_toI32 (f : Format) : toSizeT f.toI32 = f.ordinal := by
  unfold Format.toI32
  apply toSizeT_natCast
  have := ordinal_le f
  omega

theorem GetFormatInfo_toI32 (tbl : FormatTable) (f : Format) :
    GetFormatInfo tbl f.toI32 =
      match tbl.entry f with
      | some info => LookupResult.record info
      | none => LookupResult.outOfBounds := by
  unfold GetFormatInfo FormatTable.entry
  rw [toSizeT_toI32]

theorem entry_of_valid (tbl : FormatTable) (f : Format)
    (hf : f.toI32 < Format.FormatSize.toI32) :
    ∃ info, tbl.entry f = some info ∧ GetFormatInfo tbl f.toI32 = LookupResult.record info := by
  have hlt : f.ordinal < tbl.entries.length := by
    rw [tbl.size_eq, FormatPropertiesSize_eq]
    exact ordinal_lt_of_ne f ((toI32_lt_iff f).mp hf)
  have hentry : tbl.entry f = some (tbl.entries.get ⟨f.ordinal, hlt⟩) := by
    unfold FormatTable.entry
    exact List.getElem?_eq_getElem hlt
  refine ⟨tbl.entries.get ⟨f.ordinal, hlt⟩, hentry, ?_⟩
  rw [GetFormatInfo_toI32, hentry]

/-! ## The example table -/

set_option maxRecDepth 8000 in
theorem exampleTable_entry (f : Format) :
    exampleTable.entry f = if f = Format.FormatSize then none else some (exampleEntry f) := by
  revert f
  decide

set_option maxRecDepth 8000 in
theorem exampleEntry_block_pos (f : Format) (hf : f ≠ Format.None) :
    1 ≤ (exampleEntry f).bytesPerBlock ∧ 1 ≤ (exampleEntry f).blockWidth ∧
      1 ≤ (exampleEntry f).blockHeight := by
  revert f
  decide

set_option maxRecDepth 8000 in
theorem exampleEntry_one_group (f : Format) (hf : f ≠ Format.None) :
    ((exampleEntry f).HasColorBits = true ∧ (exampleEntry f).IsDepthStencil = false) ∨
      ((exampleEntry f).HasColorBits = false ∧ (exampleEntry f).IsDepthStencil = true) := by
  revert f
  decide

set_option maxRecDepth 8000 in
theorem exampleEntry_unit_block (f : Format) (hf : f ≠ Format.None)
    (hfam : IsBlockCompressedFamily f = false) :
    (exampleEntry f).blockWidth = 1 ∧ (exampleEntry f).blockHeight = 1 := by
  revert f
  decide

theorem exampleTable_entry_eq (f : Format) (info : FormatInfo)
    (h : exampleTable.entry f = some info) : info = exampleEntry f := by
  rw [exampleTable_entry] at h
  split at h
  · cases h
  · exact (Option.some.inj h).symm

set_option maxRecDepth 8000 in
theorem exampleTable_spec : SpecFormatProperties exampleTable where
  none_zero := by decide
  block_pos := by
    intro f info hf h
    rw [exampleTable_entry_eq f info h]
    exact exampleEntry_block_pos f hf
  one_group := by
    intro f info hf h
    rw [exampleTable_entry_eq f info h]
    exact exampleEntry_one_group f hf
  unit_block := by
    intro f info hf hfam h
    rw [exampleTable_entry_eq f info h]
    exact exampleEntry_unit_block f hf hfam
  rgba8 := by
    intro info h
    rw [exampleTable_entry_eq _ info h]
    decide
  depth24_stencil8 := by
    intro info h
    rw [exampleTable_entry_eq _ info h]
    decide
  astc_4x4 := by
    intro info h
    rw [exampleTable_entry_eq _ info h]
    decide

/-! ## The derived predicates -/

/-- C1: for every `FormatInfo` record, whatever its fields, `IsCompressed` is true
exactly when `blockWidth > 1` or `blockHeight > 1`. -/
theorem IsCompressed_iff (info : FormatInfo) :
    info.IsCompressed = true ↔ (info.blockWidth > 1 ∨ info.blockHeight > 1) := by
  simp [FormatInfo.IsCompressed]

/-- C2: for every `FormatInfo` record, whatever its fields, `IsDepthStencil` is
true exactly when `depthBits > 0` or `stencilBits > 0`. The predicate is a
function of the record alone (a `const` member): it is defined on every record
and yields nothing but its boolean. -/
theorem IsDepthStencil_iff (info : FormatInfo) :
    info.IsDepthStencil = true ↔ (info.depthBits > 0 ∨ info.stencilBits > 0) := by
  simp [FormatInfo.IsDepthStencil]

/-! ## The enumeration and the size of the table -/

set_option maxRecDepth 8000 in
theorem usable_card :
    (Finset.univ.filter (fun g : Format => g ≠ Format.FormatSize)).card = 157 := by
  decide

/-- C3: the table has as many elements as there are enumerators other than the
sentinel `FormatSize`, namely 157, and for every enumerator below the sentinel the
index `static_cast<size_t>(format)` is below that length, so that the subscript in
`GetFormatInfo` is in bounds and yields a record. -/
theorem FormatProperties_complete (tbl : FormatTable) (f : Format)
    (hf : f.toI32 < Format.FormatSize.toI32) :
    tbl.entries.length = (Finset.univ.filter (fun g : Format => g ≠ Format.FormatSize)).card ∧
      tbl.entries.length = 157 ∧
      toSizeT f.toI32 < tbl.entries.length ∧
      ∃ info, GetFormatInfo tbl f.toI32 = LookupResult.record info := by
  have hlen : tbl.entries.length = 157 := by rw [tbl.size_eq, FormatPropertiesSize_eq]
  refine ⟨by rw [hlen, usable_card], hlen, ?_, ?_⟩
  · rw [toSizeT_toI32, hlen]
    exact ordinal_lt_of_ne f ((toI32_lt_iff f).mp hf)
  · obtain ⟨info, _, hget⟩ := entry_of_valid tbl f hf
    exact ⟨info, hget⟩

set_option maxRecDepth 8000 in
theorem FormatProperties_complete_witness :
    Format.BGRA8_SRGB.toI32 < Format.FormatSize.toI32 ∧
      toSizeT Format.BGRA8_SRGB.toI32 < exampleTable.entries.length ∧
      ∃ info, GetFormatInfo exampleTable Format.BGRA8_SRGB.toI32 = LookupResult.record info :=
  ⟨by decide, (FormatProperties_complete exampleTable Format.BGRA8_SRGB (by decide)).2.2⟩

/-! ## Identifiers outside the table -/

set_option maxRecDepth 8000 in
/-- C4, as stated, fails: looked up with the sentinel `FormatSize`, an `i32` value
that is not below the sentinel, `GetFormatInfo` subscripts the array at 157, past
its last element, and does not report `InvalidFormatIdentifier`. -/
theorem GetFormatInfo_sentinel_not_error :
    IsI32 Format.FormatSize.toI32 ∧
      GetFormatInfo exampleTable Format.FormatSize.toI32 = LookupResult.outOfBounds ∧
      GetFormatInfo exampleTable Format.FormatSize.toI32 ≠
        LookupResult.error LookupError.InvalidFormatIdentifier := by
  decide

/-- C4, amended: for an `i32` identifier out of range (the sentinel, a value above
it, or a negative value) the index `static_cast<size_t>(format)` is not below the
length of the table, and `GetFormatInfo` applies the unchecked subscript there: it
yields no record and reports no error. -/
theorem GetFormatInfo_out_of_range (tbl : FormatTable) (v : Int) (hv : IsI32 v)
    (hout : v < 0 ∨ Format.FormatSize.toI32 ≤ v) :
    tbl.entries.length ≤ toSizeT v ∧
      GetFormatInfo tbl v = LookupResult.outOfBounds ∧
      (∀ info, GetFormatInfo tbl v ≠ LookupResult.record info) ∧
      ∀ e, GetFormatInfo tbl v ≠ LookupResult.error e := by
  have hlen : tbl.entries.length = 157 := by rw [tbl.size_eq, FormatPropertiesSize_eq]
  have hidx : tbl.entries.length ≤ toSizeT v := by
    rw [hlen]
    rcases hout with hneg | hge
    · have h := toSizeT_neg v hv hneg
      unfold IsI32 at hv
      omega
    · unfold Format.toI32 at hge
      rw [FormatSize_ordinal] at hge
      unfold IsI32 at hv
      unfold toSizeT
      omega
  have hget : GetFormatInfo tbl v = LookupResult.outOfBounds := by
    unfold GetFormatInfo
    rw [List.getElem?_eq_none hidx]
  refine ⟨hidx, hget, ?_, ?_⟩
  · intro info h
    rw [hget] at h
    cases h
  · intro e h
    rw [hget] at h
    cases h

set_option maxRecDepth 8000 in
theorem GetFormatInfo_out_of_range_witness :
    IsI32 (-1) ∧ exampleTable.entries.length ≤ toSizeT (-1) ∧
      GetFormatInfo exampleTable (-1) = LookupResult.outOfBounds :=
  have h := GetFormatInfo_out_of_range exampleTable (-1) (by decide) (Or.inl (by decide))
  ⟨by decide, h.1, h.2.1⟩

/-! ## Lookup of a valid identifier -/

/-- C5: for every table and every enumerator `f` below the sentinel,
`GetFormatInfo f` returns exactly the element of `FormatProperties` at position
`ordinal f`, and two lookups of `f` in the same table return equal records. The
table is a `const` array that the function only reads: it is an argument here and
no new table is produced. -/
theorem GetFormatInfo_returns_entry (tbl : FormatTable) (f : Format)
    (hf : f.toI32 < Format.FormatSize.toI32) :
    (∃ h : f.ordinal < tbl.entries.length,
        GetFormatInfo tbl f.toI32 = LookupResult.record (tbl.entries.get ⟨f.ordinal, h⟩)) ∧
      ∀ r₁ r₂, r₁ = GetFormatInfo tbl f.toI32 → r₂ = GetFormatInfo tbl f.toI32 → r₁ = r₂ := by
  constructor
  · have hlt : f.ordinal < tbl.entries.length := by
      rw [tbl.size_eq, FormatPropertiesSize_eq]
      exact ordinal_lt_of_ne f ((toI32_lt_iff f).mp hf)
    refine ⟨hlt, ?_⟩
    unfold GetFormatInfo
    rw [toSizeT_toI32, List.getElem?_eq_getElem hlt]
    rfl
  · intro r₁ r₂ h₁ h₂
    rw [h₁, h₂]

set_option maxRecDepth 8000 in
theorem GetFormatInfo_returns_entry_witness :
    Format.R16F.toI32 < Format.FormatSize.toI32 ∧
      ∃ h : Format.R16F.ordinal < exampleTable.entries.length,
        GetFormatInfo exampleTable Format.R16F.toI32 =
          LookupResult.record (exampleTable.entries.get ⟨Format.R16F.ordinal, h⟩) :=
  ⟨by decide, (GetFormatInfo_returns_entry exampleTable Format.R16F (by decide)).1⟩

/-- C6: the enumeration is densely numbered. `None` has ordinal 0; the sentinel
`FormatSize` has ordinal 157, above the ordinal of every other enumerator; the
ordinals of different enumerators differ; every index from 0 to 156 is the
ordinal of an enumerator other than the sentinel; and there are 157 of those. -/
theorem Format_ordinal_dense :
    Format.None.ordinal = 0 ∧
      Format.FormatSize.ordinal = 157 ∧
      (∀ f : Format, f ≠ Format.FormatSize → f.ordinal < Format.FormatSize.ordinal) ∧
      (∀ f g : Format, f.ordinal = g.ordinal → f = g) ∧
      (∀ i : Nat, i < 157 → ∃ f : Format, f ≠ Format.FormatSize ∧ f.ordinal = i) ∧
      (Finset.univ.filter (fun g : Format => g ≠ Format.FormatSize)).card = 157 := by
  refine ⟨by decide, FormatSize_ordinal, ?_, ordinal_injective, ?_, usable_card⟩
  · intro f hf
    rw [FormatSize_ordinal]
    exact ordinal_lt_of_ne f hf
  · intro i hi
    have h := ordinal_at_enumerators i (by omega)
    cases hget : Format.enumerators[i]? with
    | none => rw [hget] at h; cases h
    | some f =>
      rw [hget] at h
      have hord : f.ordinal = i := Option.some.inj h
      refine ⟨f, ?_, hord⟩
      intro hfs
      rw [hfs, FormatSize_ordinal] at hord
      omega

/-! ## The contents of the table

The elements of `FormatProperties` are not in the header. The theorems of this
section hold for every table with the properties the specification gives, which
`SpecFormatProperties` collects; `exampleTable` is one such table. -/

theorem HasColorBits_iff (info : FormatInfo) :
    info.HasColorBits = true ↔
      (info.redBits > 0 ∨ info.greenBits > 0 ∨ info.blueBits > 0 ∨ info.alphaBits > 0) := by
  simp [FormatInfo.HasColorBits, or_assoc]

theorem zero_no_bits :
    FormatInfo.zero.HasColorBits = false ∧ FormatInfo.zero.IsDepthStencil = false := by
  decide

/-- C7: in a table as the specification describes it, for every enumerator `f`
below the sentinel, `GetFormatInfo f` returns a record with `bytesPerBlock`,
`blockWidth` and `blockHeight` at least 1, unless `f` is `None`, whose record is
the all-zero one, with `texture` and `vertex` false. -/
theorem GetFormatInfo_block_positive (tbl : FormatTable) (hspec : SpecFormatProperties tbl)
    (f : Format) (hf : f.toI32 < Format.FormatSize.toI32) :
    ∃ info, GetFormatInfo tbl f.toI32 = LookupResult.record info ∧
      (f ≠ Format.None →
        1 ≤ info.bytesPerBlock ∧ 1 ≤ info.blockWidth ∧ 1 ≤ info.blockHeight) ∧
      (f = Format.None →
        info = FormatInfo.zero ∧ info.texture = false ∧ info.vertex = false) := by
  obtain ⟨info, hentry, hget⟩ := entry_of_valid tbl f hf
  refine ⟨info, hget, ?_, ?_⟩
  · intro hne
    exact hspec.block_pos f info hne hentry
  · intro hnone
    rw [hnone, hspec.none_zero] at hentry
    have hz : info = FormatInfo.zero := (Option.some.inj hentry).symm
    rw [hz]
    exact ⟨rfl, rfl, rfl⟩

set_option maxRecDepth 8000 in
theorem GetFormatInfo_block_positive_witness :
    SpecFormatProperties exampleTable ∧ Format.R8.toI32 < Format.FormatSize.toI32 ∧
      ∃ info, GetFormatInfo exampleTable Format.R8.toI32 = LookupResult.record info ∧
        (Format.R8 ≠ Format.None →
          1 ≤ info.bytesPerBlock ∧ 1 ≤ info.blockWidth ∧ 1 ≤ info.blockHeight) ∧
        (Format.R8 = Format.None →
          info = FormatInfo.zero ∧ info.texture = false ∧ info.vertex = false) :=
  ⟨exampleTable_spec, by decide,
    GetFormatInfo_block_positive exampleTable exampleTable_spec Format.R8 (by decide)⟩

/-- C8: in a table as the specification describes it, for every enumerator `f`
below the sentinel, exactly one of three things holds of the record
`GetFormatInfo f` returns: `IsDepthStencil` is true; one of `redBits`,
`greenBits`, `blueBits`, `alphaBits` is positive; the record is the all-zero one.
In particular no record has both colour bits and depth or stencil bits. -/
theorem GetFormatInfo_one_group (tbl : FormatTable) (hspec : SpecFormatProperties tbl)
    (f : Format) (hf : f.toI32 < Format.FormatSize.toI32) :
    ∃ info, GetFormatInfo tbl f.toI32 = LookupResult.record info ∧
      ((info.IsDepthStencil = true ∧ info.HasColorBits = false ∧ info ≠ FormatInfo.zero) ∨
        (info.IsDepthStencil = false ∧ info.HasColorBits = true ∧ info ≠ FormatInfo.zero) ∨
        (info.IsDepthStencil = false ∧ info.HasColorBits = false ∧ info = FormatInfo.zero)) ∧
      ¬ (info.HasColorBits = true ∧ info.IsDepthStencil = true) := by
  obtain ⟨info, hentry, hget⟩ := entry_of_valid tbl f hf
  refine ⟨info, hget, ?_⟩
  by_cases hnone : f = Format.None
  · rw [hnone, hspec.none_zero] at hentry
    have hz : info = FormatInfo.zero := (Option.some.inj hentry).symm
    rw [hz]
    decide
  · rcases hspec.one_group f info hnone hentry with ⟨hc, hd⟩ | ⟨hc, hd⟩
    · refine ⟨Or.inr (Or.inl ⟨hd, hc, ?_⟩), ?_⟩
      · intro hz
        rw [hz, zero_no_bits.1] at hc
        cases hc
      · rintro ⟨_, hd2⟩
        rw [hd] at hd2
        cases hd2
    · refine ⟨Or.inl ⟨hd, hc, ?_⟩, ?_⟩
      · intro hz
        rw [hz, zero_no_bits.2] at hd
        cases hd
      · rintro ⟨hc2, _⟩
        rw [hc] at hc2
        cases hc2

set_option maxRecDepth 8000 in
theorem GetFormatInfo_one_group_witness :
    SpecFormatProperties exampleTable ∧ Format.Depth24_Stencil8.toI32 < Format.FormatSize.toI32 ∧
      ∃ info, GetFormatInfo exampleTable Format.Depth24_Stencil8.toI32 = LookupResult.record info ∧
        ((info.IsDepthStencil = true ∧ info.HasColorBits = false ∧ info ≠ FormatInfo.zero) ∨
          (info.IsDepthStencil = false ∧ info.HasColorBits = true ∧ info ≠ FormatInfo.zero) ∨
          (info.IsDepthStencil = false ∧ info.HasColorBits = false ∧ info = FormatInfo.zero)) ∧
        ¬ (info.HasColorBits = true ∧ info.IsDepthStencil = true) :=
  ⟨exampleTable_spec, by decide,
    GetFormatInfo_one_group exampleTable exampleTable_spec Format.Depth24_Stencil8 (by decide)⟩

set_option maxRecDepth 8000 in
/-- C9: `RGBA8` has ordinal 37, and in a table as the specification describes it
`GetFormatInfo(RGBA8)` returns a record with `texture` and `vertex` true,
`bytesPerBlock = 4`, a 1x1 block, 8 bits for each of red, green, blue and alpha,
and no depth or stencil bits. -/
theorem GetFormatInfo_RGBA8 (tbl : FormatTable) (hspec : SpecFormatProperties tbl) :
    Format.RGBA8.toI32 = 37 ∧
      ∃ info, GetFormatInfo tbl 37 = LookupResult.record info ∧
        info.texture = true ∧ info.vertex = true ∧ info.bytesPerBlock = 4 ∧
        info.blockWidth = 1 ∧ info.blockHeight = 1 ∧ info.redBits = 8 ∧ info.greenBits = 8 ∧
        info.blueBits = 8 ∧ info.alphaBits = 8 ∧ info.depthBits = 0 ∧ info.stencilBits = 0 := by
  have hord : Format.RGBA8.toI32 = 37 := by decide
  obtain ⟨info, hentry, hget⟩ := entry_of_valid tbl Format.RGBA8 (by decide)
  rw [hord] at hget
  exact ⟨hord, info, hget, hspec.rgba8 info hentry⟩

theorem GetFormatInfo_RGBA8_witness :
    SpecFormatProperties exampleTable ∧
      ∃ info, GetFormatInfo exampleTable 37 = LookupResult.record info ∧
        info.texture = true ∧ info.vertex = true ∧ info.bytesPerBlock = 4 ∧
        info.blockWidth = 1 ∧ info.blockHeight = 1 ∧ info.redBits = 8 ∧ info.greenBits = 8 ∧
        info.blueBits = 8 ∧ info.alphaBits = 8 ∧ info.depthBits = 0 ∧ info.stencilBits = 0 :=
  ⟨exampleTable_spec, (GetFormatInfo_RGBA8 exampleTable exampleTable_spec).2⟩

set_option maxRecDepth 8000 in
/-- C10: `Depth24_Stencil8` has ordinal 53, and in a table as the specification
describes it `GetFormatInfo(Depth24_Stencil8)` returns a record with
`depthBits = 24` and `stencilBits = 8`, of which `IsDepthStencil` is true and
`IsCompressed` is false. -/
theorem GetFormatInfo_Depth24_Stencil8 (tbl : FormatTable) (hspec : SpecFormatProperties tbl) :
    Format.Depth24_Stencil8.toI32 = 53 ∧
      ∃ info, GetFormatInfo tbl 53 = LookupResult.record info ∧
        info.depthBits = 24 ∧ info.stencilBits = 8 ∧
        info.IsDepthStencil = true ∧ info.IsCompressed = false := by
  have hord : Format.Depth24_Stencil8.toI32 = 53 := by decide
  obtain ⟨info, hentry, hget⟩ := entry_of_valid tbl Format.Depth24_Stencil8 (by decide)
  rw [hord] at hget
  obtain ⟨hd, hs⟩ := hspec.depth24_stencil8 info hentry
  obtain ⟨hw, hh⟩ :=
    hspec.unit_block Format.Depth24_Stencil8 info (by decide) (by decide) hentry
  refine ⟨hord, info, hget, hd, hs, ?_, ?_⟩
  · simp [FormatInfo.IsDepthStencil, hd]
  · simp [FormatInfo.IsCompressed, hw, hh]

theorem GetFormatInfo_Depth24_Stencil8_witness :
    SpecFormatProperties exampleTable ∧
      ∃ info, GetFormatInfo exampleTable 53 = LookupResult.record info ∧
        info.depthBits = 24 ∧ info.stencilBits = 8 ∧
        info.IsDepthStencil = true ∧ info.IsCompressed = false :=
  ⟨exampleTable_spec, (GetFormatInfo_Depth24_Stencil8 exampleTable exampleTable_spec).2⟩

set_option maxRecDepth 8000 in
/-- C11: `RGBA_ASTC_4x4` has ordinal 121, and in a table as the specification
describes it `GetFormatInfo(RGBA_ASTC_4x4)` returns a record with `texture` true,
`vertex` false and a 4x4 block, of which `IsCompressed` is true. -/
theorem GetFormatInfo_RGBA_ASTC_4x4 (tbl : FormatTable) (hspec : SpecFormatProperties tbl) :
    Format.RGBA_ASTC_4x4.toI32 = 121 ∧
      ∃ info, GetFormatInfo tbl 121 = LookupResult.record info ∧
        info.texture = true ∧ info.vertex = false ∧
        info.blockWidth = 4 ∧ info.blockHeight = 4 ∧ info.IsCompressed = true := by
  have hord : Format.RGBA_ASTC_4x4.toI32 = 121 := by decide
  obtain ⟨info, hentry, hget⟩ := entry_of_valid tbl Format.RGBA_ASTC_4x4 (by decide)
  rw [hord] at hget
  obtain ⟨ht, hv, hw, hh⟩ := hspec.astc_4x4 info hentry
  refine ⟨hord, info, hget, ht, hv, hw, hh, ?_⟩
  simp [FormatInfo.IsCompressed, hw]

theorem GetFormatInfo_RGBA_ASTC_4x4_witness :
    SpecFormatProperties exampleTable ∧
      ∃ info, GetFormatInfo exampleTable 121 = LookupResult.record info ∧
        info.texture = true ∧ info.vertex = false ∧
        info.blockWidth = 4 ∧ info.blockHeight = 4 ∧ info.IsCompressed = true :=
  ⟨exampleTable_spec, (GetFormatInfo_RGBA_ASTC_4x4 exampleTable exampleTable_spec).2⟩

/-! ## The index conversion -/

/-- C12: for every `i32` value `v` used as a `Format`, the index
`static_cast<size_t>(v)` is below the length of the table, 157, exactly when
`0 ≤ v < 157`; a negative `v` converts to an index of at least `2^64 - 2^31`,
at which no table has an element. -/
theorem toSizeT_in_table_iff (tbl : FormatTable) (v : Int) (hv : IsI32 v) :
    tbl.entries.length = 157 ∧
      (toSizeT v < tbl.entries.length ↔ (0 ≤ v ∧ v < 157)) ∧
      (v < 0 → 2 ^ 64 - 2 ^ 31 ≤ toSizeT v ∧ tbl.entries[toSizeT v]? = none) := by
  have hlen : tbl.entries.length = 157 := by rw [tbl.size_eq, FormatPropertiesSize_eq]
  refine ⟨hlen, ?_, ?_⟩
  · rw [hlen]
    unfold IsI32 at hv
    unfold toSizeT
    omega
  · intro hneg
    have h := toSizeT_neg v hv hneg
    have hbig : 2 ^ 64 - 2 ^ 31 ≤ toSizeT v := by
      unfold IsI32 at hv
      omega
    refine ⟨hbig, ?_⟩
    apply List.getElem?_eq_none
    rw [hlen]
    omega

set_option maxRecDepth 8000 in
theorem toSizeT_in_table_iff_witness :
    IsI32 (-2147483648) ∧ toSizeT (-2147483648) = 2 ^ 64 - 2 ^ 31 ∧
      ¬ (toSizeT (-2147483648) < exampleTable.entries.length) ∧
      exampleTable.entries[toSizeT (-2147483648)]? = none :=
  have h := toSizeT_in_table_iff exampleTable (-2147483648) (by decide)
  ⟨by decide, by decide, fun hlt => absurd (h.2.1.mp hlt).1 (by decide),
    (h.2.2 (by decide)).2⟩

/-! ## Records in general -/

/-- C13: the all-zero record has both flags false and every number zero, so
`IsCompressed` and `IsDepthStencil` are false of it and it has no colour bits;
and a record of which `IsDepthStencil` is true, or one of whose `redBits`,
`greenBits`, `blueBits`, `alphaBits` is positive, is not the all-zero record. -/
theorem zero_record_disjoint (info : FormatInfo)
    (h : info.IsDepthStencil = true ∨ info.redBits > 0 ∨ info.greenBits > 0 ∨
      info.blueBits > 0 ∨ info.alphaBits > 0) :
    (FormatInfo.zero.texture = false ∧ FormatInfo.zero.vertex = false ∧
        FormatInfo.zero.bytesPerBlock = 0 ∧ FormatInfo.zero.blockWidth = 0 ∧
        FormatInfo.zero.blockHeight = 0 ∧ FormatInfo.zero.redBits = 0 ∧
        FormatInfo.zero.greenBits = 0 ∧ FormatInfo.zero.blueBits = 0 ∧
        FormatInfo.zero.alphaBits = 0 ∧ FormatInfo.zero.depthBits = 0 ∧
        FormatInfo.zero.stencilBits = 0 ∧ FormatInfo.zero.vkFormat = 0) ∧
      FormatInfo.zero.IsCompressed = false ∧
      FormatInfo.zero.IsDepthStencil = false ∧
      FormatInfo.zero.HasColorBits = false ∧
      info ≠ FormatInfo.zero := by
  refine ⟨by decide, by decide, by decide, by decide, ?_⟩
  intro hz
  rw [hz] at h
  revert h
  decide

theorem zero_record_disjoint_witness :
    (FormatInfo.IsDepthStencil
        { texture := true, vertex := false, bytesPerBlock := 1, blockWidth := 1,
          blockHeight := 1, redBits := 0, greenBits := 0, blueBits := 0, alphaBits := 0,
          depthBits := 0, stencilBits := 8, vkFormat := 127 } = true) ∧
      ({ texture := true, vertex := false, bytesPerBlock := 1, blockWidth := 1,
          blockHeight := 1, redBits := 0, greenBits := 0, blueBits := 0, alphaBits := 0,
          depthBits := 0, stencilBits := 8, vkFormat := 127 } : FormatInfo) ≠ FormatInfo.zero :=
  ⟨by decide,
    (zero_record_disjoint
      { texture := true, vertex := false, bytesPerBlock := 1, blockWidth := 1,
        blockHeight := 1, redBits := 0, greenBits := 0, blueBits := 0, alphaBits := 0,
        depthBits := 0, stencilBits := 8, vkFormat := 127 } (Or.inl (by decide))).2.2.2.2⟩

/-- C14: `IsCompressed` depends on `blockWidth` and `blockHeight` only, and
`IsDepthStencil` on `depthBits` and `stencilBits` only: two records that agree on
the two fields give the same result, whatever their other fields are. -/
theorem predicates_depend_on_own_fields (a b : FormatInfo) :
    (a.blockWidth = b.blockWidth → a.blockHeight = b.blockHeight →
        a.IsCompressed = b.IsCompressed) ∧
      (a.depthBits = b.depthBits → a.stencilBits = b.stencilBits →
        a.IsDepthStencil = b.IsDepthStencil) := by
  constructor
  · intro hw hh
    unfold FormatInfo.IsCompressed
    rw [hw, hh]
  · intro hd hs
    unfold FormatInfo.IsDepthStencil
    rw [hd, hs]

theorem predicates_depend_on_own_fields_witness :
    FormatInfo.IsCompressed
        { texture := true, vertex := false, bytesPerBlock := 16, blockWidth := 4,
          blockHeight := 4, redBits := 8, greenBits := 8, blueBits := 8, alphaBits := 8,
          depthBits := 0, stencilBits := 0, vkFormat := 157 } =
      FormatInfo.IsCompressed
        { texture := false, vertex := true, bytesPerBlock := 1, blockWidth := 4,
          blockHeight := 4, redBits := 0, greenBits := 0, blueBits := 0, alphaBits := 0,
          depthBits := 24, stencilBits := 8, vkFormat := 0 } :=
  (predicates_depend_on_own_fields _ _).1 rfl rfl

end format

end nnvk
